import Mathlib

/-!
Verification development for the membership-verification core of the bot
(`VerifyManager` and related manager code).

The TypeScript source is shallowly embedded: the requirement evaluator
`checkRequirements`, the guild-rank comparison `isValidGuildRank`, the
section verification dispatch `verifySection`, the main-section CHECKING
step of `verifyMain`, and the moderator acknowledgement
`acknowledgeManualVerifyRes` become pure Lean functions.  External
collaborators (RealmEye lookups, the Mongo store, Discord channel / role
caches) are passed in as explicit environment records, and the evaluator
additionally returns a `FetchLog` recording which external lookups it
performed, mirroring the position of each `await` in the source.

Issues are identified by their `key` strings (the display/log message
bodies are presentation-only and are not modelled).  The eight exaltation
stats, which the source keys by the fixed string maps
`SHORT_STAT_TO_LONG` / `LONG_STAT_TO_SHORT`, are modelled as a closed
enumeration `Stat`.
-/

namespace VerifyManager

/-- Evaluation verdict, `IReqCheckResult.conclusion` in the source. -/
inductive Conclusion
  | PASS
  | TRY_AGAIN
  | MANUAL
  | FAIL
deriving DecidableEq, Repr

/-- The eight exaltation stats (the keys of `SHORT_STAT_TO_LONG`). -/
inductive Stat
  | attack
  | defense
  | speed
  | dexterity
  | vitality
  | wisdom
  | health
  | magic
deriving DecidableEq, Repr

/-- Iteration order of the stat keys, matching the declaration order of
`SHORT_STAT_TO_LONG` / `LONG_STAT_TO_SHORT` in the source. -/
def STAT_KEYS : List Stat :=
  [.attack, .defense, .speed, .dexterity, .vitality, .wisdom, .health, .magic]

/-- One character as reported by the profile service; `statsMaxed` is the
character tier, `-1` meaning the character is not counted. -/
structure CharacterData where
  statsMaxed : Int
deriving DecidableEq, Repr

/-- `PAD.IPlayerData`: the external profile snapshot fields read by the
verification core. -/
structure PlayerData where
  name : String
  rank : Int
  fame : Int
  guild : String
  guildRank : String
  lastSeen : String
  description : List String
  characters : List CharacterData
deriving DecidableEq, Repr

/-- One achievement entry of the graveyard summary (`properties`). -/
structure GraveyardProperty where
  achievement : String
  total : Int
deriving DecidableEq, Repr

/-- One entry of `gyHist.statsCharacters`; `stats` is the per-tier count
array of that past character. -/
structure StatsCharacter where
  stats : List Int
deriving DecidableEq, Repr

/-- `PAD.IGraveyardSummary`: the parts read by the evaluator. -/
structure GraveyardSummary where
  statsCharacters : List StatsCharacter
  properties : List GraveyardProperty
deriving DecidableEq, Repr

/-- Modelled from the spec: the private-api definition `PAD.IExaltation`
is not part of the provided sources; per the spec, an exaltation record is
a "per-character mapping of stat→bonus amount", so `exaltationStats` is a
total map over the eight stats. -/
structure ExaltEntry where
  exaltationStats : Stat → Int

/-- Modelled from the spec: the exaltation record for a player, one entry
per character. -/
structure ExaltData where
  exaltations : List ExaltEntry

/-- The external lookups the evaluator may perform, provided as an
environment: graveyard summary, exaltation record, the user document's
logged dungeon completions, the dungeon registry, and the Discord channel
cache. -/
structure ExtEnv where
  gyHist : Option GraveyardSummary
  exaltData : Option ExaltData
  userDoc : Option (List (String × Int))
  dungeonExists : String → Bool
  hasCachedChannel : String → Bool

/-- `verifReq.lastSeen`. -/
structure LastSeenReq where
  mustBeHidden : Bool

/-- `verifReq.guild.guildName`. -/
structure GuildNameReq where
  checkThis : Bool
  name : String

/-- `verifReq.guild.guildRank`. -/
structure GuildRankReq where
  checkThis : Bool
  minRank : String
  exact : Bool

/-- `verifReq.guild`. -/
structure GuildReq where
  checkThis : Bool
  guildName : GuildNameReq
  guildRank : GuildRankReq

/-- `verifReq.rank`. -/
structure RankReq where
  checkThis : Bool
  minRank : Int

/-- `verifReq.aliveFame`. -/
structure FameReq where
  checkThis : Bool
  minFame : Int

/-- `verifReq.characters`. -/
structure CharacterNeedsReq where
  checkThis : Bool
  statsNeeded : List Int
  checkPastDeaths : Bool

/-- `verifReq.exaltations`. -/
structure ExaltationReq where
  checkThis : Bool
  onOneChar : Bool
  minimum : Stat → Int

/-- `verifReq.graveyardSummary`. -/
structure GraveyardReq where
  checkThis : Bool
  useBotCompletions : Bool
  botCompletions : List (String × Int)
  realmEyeCompletions : List (String × Int)

/-- `verifReq`: the requirement policy tree. -/
structure VerifReq where
  lastSeen : LastSeenReq
  guild : GuildReq
  rank : RankReq
  aliveFame : FameReq
  characters : CharacterNeedsReq
  exaltations : ExaltationReq
  graveyardSummary : GraveyardReq

/-- `otherMajorConfig.verificationProperties`: the master flag plus the
requirement tree. -/
structure VerificationProperties where
  checkRequirements : Bool
  verifReq : VerifReq

/-- The per-scope (section) configuration the verification core reads. -/
structure SectionInfo where
  uniqueIdentifier : String
  isMainSection : Bool
  verifiedRoleId : String
  manualVerificationChannelId : String
  verificationProperties : VerificationProperties

/-- `IReqCheckResult` (issues identified by their `key` strings). -/
structure ReqCheckResult where
  name : String
  conclusion : Conclusion
  manualIssues : List String
  fatalIssues : List String
  taIssues : List String
  orig : PlayerData

/-- Which external lookups a run of the evaluator performed. -/
structure FetchLog where
  gyFetched : Bool
  exaltFetched : Bool
  userDocFetched : Bool
deriving DecidableEq, Repr

/-- `GUILD_ROLES`: the fixed guild rank ordering, highest first. -/
def GUILD_ROLES : List String :=
  ["Founder", "Leader", "Officer", "Member", "Initiate"]

/-- JavaScript `Array.prototype.indexOf`: index of the first occurrence,
`-1` when absent. -/
def jsIndexOf (x : String) : List String → Int
  | [] => -1
  | y :: ys =>
    if y = x then 0
    else
      let r := jsIndexOf x ys
      if r = -1 then -1 else r + 1

/-- The descending scan of `isValidGuildRank`: with argument `k + 1` it
checks `GUILD_ROLES` indices `k, k - 1, …, 0` against `actual`. -/
def rankScanDown (actual : String) : Nat → Bool
  | 0 => false
  | k + 1 => if GUILD_ROLES.getD k "" = actual then true else rankScanDown actual k

/-- `isValidGuildRank(minNeeded, actual)`: rank equality, or `actual`
appearing at or above `minNeeded` in `GUILD_ROLES`. -/
def isValidGuildRank (minNeeded actual : String) : Bool :=
  if minNeeded = actual then true
  else
    let idx := jsIndexOf minNeeded GUILD_ROLES
    if idx = -1 then false
    else rankScanDown actual (idx.toNat + 1)

/-- The downward-cascading decrement used by the character-tier match:
with argument `k` it scans indices `k - 1, k - 2, …, 0` and subtracts
`amt` at the first index whose needed count is positive. -/
def cascadeDown (needed : List Int) (amt : Int) : Nat → List Int
  | 0 => needed
  | j + 1 =>
    if needed.getD j 0 > 0 then needed.set j (needed.getD j 0 - amt)
    else cascadeDown needed amt j

/-- Processing of one live character of tier `tier` against the needed
counts (the loop body over `resp.characters`). -/
def charStep (needed : List Int) (tier : Int) : List Int :=
  if 0 ≤ tier ∧ needed.getD tier.toNat 0 > 0 then
    needed.set tier.toNat (needed.getD tier.toNat 0 - 1)
  else cascadeDown needed 1 tier.toNat

/-- Processing of all live characters: characters with `statsMaxed = -1`
are skipped, the rest are folded through `charStep`. -/
def processChars (needed : List Int) (chars : List CharacterData) : List Int :=
  (chars.filter (fun c => c.statsMaxed ≠ -1)).foldl
    (fun nd c => charStep nd c.statsMaxed) needed

/-- The past-deaths contribution of one graveyard character: for each
index `i` of its stat array, subtract `statInfo[i]` at `i` when the need
there is positive, and otherwise cascade the subtraction downward. -/
def pastDeathsStep (needed : List Int) (statInfo : List Int) : List Int :=
  (List.range statInfo.length).foldl
    (fun nd i =>
      if nd.getD i 0 > 0 then nd.set i (nd.getD i 0 - statInfo.getD i 0)
      else cascadeDown nd (statInfo.getD i 0) i)
    needed

/-- The whole past-deaths adjustment over `gyHist.statsCharacters`. -/
def applyPastDeaths (needed : List Int) (statsChars : List StatsCharacter) : List Int :=
  (statsChars.map (fun x => x.stats)).foldl pastDeathsStep needed

/-- Pointwise update of a stat map, the shallow embedding of
`neededExalt[s] = v`. -/
def updStat (f : Stat → Int) (k : Stat) (v : Int) : Stat → Int :=
  fun x => if x = k then v else f x

/-- Whether one character's exaltations satisfy every per-stat need
simultaneously (the inner loop of the `onOneChar` mode: the entry fails as
soon as `neededExalt[s] - entry.exaltationStats[s] > 0` for some stat). -/
def entryPasses (needed : Stat → Int) (e : ExaltEntry) : Bool :=
  STAT_KEYS.all (fun s => !(decide (needed s - e.exaltationStats s > 0)))

/-- `neededExalt[k] = 0` for every stat key. -/
def zeroAllStats (needed : Stat → Int) : Stat → Int :=
  STAT_KEYS.foldl (fun nd k => updStat nd k 0) needed

/-- The `onOneChar` loop over the exaltation entries: the first entry that
passes zeroes out every need and stops the loop; failing entries leave the
needs untouched. -/
def oneCharLoop (needed : Stat → Int) : List ExaltEntry → (Stat → Int)
  | [] => needed
  | e :: rest =>
    if entryPasses needed e then zeroAllStats needed else oneCharLoop needed rest

/-- The aggregate mode's per-entry update: subtract each of the entry's
stats from the corresponding need. -/
def sumEntry (needed : Stat → Int) (e : ExaltEntry) : Stat → Int :=
  STAT_KEYS.foldl (fun nd s => updStat nd s (nd s - e.exaltationStats s)) needed

/-- The stats whose exaltation need is still positive after processing all
entries in the selected mode (`notMetExaltations` in the source). -/
def exaltUnmetStats (onOneChar : Bool) (minimum : Stat → Int)
    (entries : List ExaltEntry) : List Stat :=
  let needed0 : Stat → Int := fun s => minimum s
  let needed1 :=
    if onOneChar then oneCharLoop needed0 entries
    else entries.foldl sumEntry needed0
  STAT_KEYS.filter (fun s => decide (needed1 s > 0))

/-- The exaltation requirement block: returns the manual-issue keys, the
try-again-issue keys, and whether the exaltation record was fetched. -/
def exaltationCheck (env : ExtEnv) (vr : VerifReq) :
    List String × List String × Bool :=
  if vr.exaltations.checkThis then
    match env.exaltData with
    | none => ([], ["Exaltation Information Private"], true)
    | some ex =>
      let notMet := exaltUnmetStats vr.exaltations.onOneChar vr.exaltations.minimum ex.exaltations
      (if notMet.length > 0 then ["Exaltation Requirement Not Satisfied"] else [], [], true)
  else ([], [], false)

/-- `DISPLAY_TO_GY_HIST`: display dungeon name → graveyard achievement
key. -/
def DISPLAY_TO_GY_HIST : List (String × String) :=
  [("Lost Halls", "Lost Halls completed"),
   ("Voids", "Voids completed"),
   ("Cultist Hideouts", "Cultist Hideouts completed"),
   ("Nests", "Nests completed2"),
   ("Shatters", "Shatters completed1"),
   ("Tomb of the Ancients", "Tombs completed"),
   ("Ocean Trenches", "Ocean Trenches completed"),
   ("Parasite Chambers", "Parasite chambers completed4"),
   ("Lair of Shaitans", "Lairs of Shaitan completed4"),
   ("Puppet Master\x27s Encores", "Puppet Master\x27s Encores completed4"),
   ("Cnidarian Reefs", "Cnidarian Reefs completed"),
   ("Secluded Thickets", "Secluded Thickets completed"),
   ("Cursed Libraries", "Cursed Libraries completed"),
   ("Fungal Caverns", "Fungal Caverns completed"),
   ("Crystal Caverns", "Crystal Caverns completed"),
   ("Lair of Draconis (Hard)", "Lairs of Draconis (hard mode) completed2"),
   ("Lair of Draconis (Easy)", "Lairs of Draconis (easy mode) completed1"),
   ("Mountain Temples", "Mountain Temples completed2"),
   ("Crawling Depths", "Crawling Depths completed1"),
   ("Woodland Labyrinths", "Woodland Labyrinths completed1"),
   ("Deadwater Docks", "Deadwater Docks completed1"),
   ("Ice Cave", "Ice Caves completed1"),
   ("Belladonna\x27s Gardens", "Bella Donnas completed3"),
   ("Davy Jones\x27 Lockers", "Davy Jones\x27s Lockers completed1"),
   ("Battle of the Nexus", "Battle for the Nexuses completed1"),
   ("Candyland Hunting Grounds", "Candyland Hunting Grounds completed"),
   ("Puppet Master\x27s Theatres", "Puppet Master\x27s Theatres completed1"),
   ("Toxic Sewers", "Toxic Sewers completed1"),
   ("Haunted Cemetaries", "Haunted Cemeteries completed1"),
   ("Mad Labs", "Mad Labs completed1"),
   ("Abyss of Demons", "Abysses of Demons completed"),
   ("Manor of the Immortals", "Manors of the Immortals completed"),
   ("Ancient Ruins", "Ancient Ruins completed"),
   ("Undead Lairs", "Undead Lairs completed"),
   ("Sprite Worlds", "Sprite Worlds completed"),
   ("Snake Pits", "Snake Pits completed"),
   ("Cave of a Thousand Treasures", "Caves of a Thousand Treasures completed1"),
   ("Magic Woods", "Magic Woods completed"),
   ("Hives", "Hives completed1"),
   ("Spider Dens", "Spider Dens completed"),
   ("Forbidden Jungles", "Forbidden Jungles completed"),
   ("Forest Mazes", "Forest Mazes completed1"),
   ("Pirate Caves", "Pirate Caves completed")]

/-- The externally-reported graveyard history match: one display line per
target that has no data or not enough completions (only the presence of
lines matters downstream; each line is represented by the target's display
key). -/
def realmEyeIssues (reqs : List (String × Int)) (gy : GraveyardSummary) : List String :=
  reqs.foldl
    (fun acc p =>
      match DISPLAY_TO_GY_HIST.lookup p.1 with
      | none => acc
      | some gyHistKey =>
        match gy.properties.find? (fun pr => pr.achievement == gyHistKey) with
        | none => acc ++ [p.1]
        | some data => if p.2 > data.total then acc ++ [p.1] else acc)
    []

/-- The logged-counters match: folds the user's logged dungeon counts over
the needed completions; a logged dungeon that still leaves a positive need
clears `allPassed`, a fulfilled need is deleted from the collection. -/
def botCompLoop (dungeonExists : String → Bool) (logged : List (String × Int))
    (needed0 : List (String × Int)) : List (String × Int) × Bool :=
  logged.foldl
    (fun st p =>
      if dungeonExists p.1 then
        match st.1.lookup p.1 with
        | none => st
        | some need =>
          if need - p.2 ≤ 0 then (st.1.filter (fun q => q.1 ≠ p.1), st.2)
          else (st.1, false)
      else st)
    (needed0, true)

/-- The graveyard/dungeon-completion requirement block: returns the
manual-issue keys, the try-again-issue keys, and whether the user document
(logged counters) was fetched. -/
def graveyardCheck (env : ExtEnv) (vr : VerifReq) (gyHist : Option GraveyardSummary) :
    List String × List String × Bool :=
  if vr.graveyardSummary.checkThis then
    if vr.graveyardSummary.useBotCompletions then
      let loggedInfo := (env.userDoc).getD []
      let res := botCompLoop env.dungeonExists loggedInfo vr.graveyardSummary.botCompletions
      (if res.2 then [] else ["Dungeon Completion Requirement Not Fulfilled"], [], true)
    else
      match gyHist with
      | none => ([], ["Graveyard History Private"], false)
      | some gy =>
        let issues := realmEyeIssues vr.graveyardSummary.realmEyeCompletions gy
        (if issues.length > 0 then ["Dungeon Completion Requirement Not Fulfilled"] else [],
         [], false)
  else ([], [], false)

/-- The verdict resolution of the evaluator (fixed precedence
FATAL > TRY_AGAIN > MANUAL > PASS). -/
def resolveConclusion (fatal ta manual : List String) : Conclusion :=
  if fatal.length > 0 then .FAIL
  else if ta.length > 0 then .TRY_AGAIN
  else if manual.length > 0 then .MANUAL
  else .PASS

/-- A `FetchLog` with no lookup performed. -/
def noFetch : FetchLog :=
  { gyFetched := false, exaltFetched := false, userDocFetched := false }

/-- The non-short-circuited remainder of `checkRequirements`, entered once
the guild checks have passed (or are disabled): rank, alive fame, the
unconditional graveyard-summary fetch, characters, dungeon completions,
exaltations, verdict resolution, and the MANUAL downgrade when no manual
verification channel is cached. -/
def checkRequirementsMain (env : ExtEnv) (sec : SectionInfo) (resp : PlayerData)
    (taIssues0 : List String) : ReqCheckResult × FetchLog :=
  let vr := sec.verificationProperties.verifReq
  let manualIssues1 : List String :=
    if vr.rank.checkThis ∧ resp.rank < vr.rank.minRank then ["Rank Too Low"] else []
  let manualIssues2 : List String :=
    manualIssues1 ++
      (if vr.aliveFame.checkThis ∧ resp.fame < vr.aliveFame.minFame then
        ["Alive Fame Too Low"] else [])
  let gyHist := env.gyHist
  let charIssues : List String :=
    if vr.characters.checkThis then
      let neededStats0 := vr.characters.statsNeeded
      let neededStats1 :=
        match vr.characters.checkPastDeaths, gyHist with
        | true, some gy => applyPastDeaths neededStats0 gy.statsCharacters
        | _, _ => neededStats0
      let neededStats2 := processChars neededStats1 resp.characters
      if neededStats2.any (fun x => decide (x > 0)) then
        ["Stats Requirement Not Fulfilled"]
      else []
    else []
  let manualIssues3 := manualIssues2 ++ charIssues
  let gyRes := graveyardCheck env vr gyHist
  let manualIssues4 := manualIssues3 ++ gyRes.1
  let taIssues1 := taIssues0 ++ gyRes.2.1
  let exRes := exaltationCheck env vr
  let manualIssues5 := manualIssues4 ++ exRes.1
  let taIssues2 := taIssues1 ++ exRes.2.1
  let fatalIssues : List String := []
  let concl0 := resolveConclusion fatalIssues taIssues2 manualIssues5
  let concl :=
    if concl0 = .MANUAL ∧ env.hasCachedChannel sec.manualVerificationChannelId = false then
      Conclusion.FAIL
    else concl0
  ({ name := resp.name, conclusion := concl, manualIssues := manualIssues5,
     fatalIssues := fatalIssues, taIssues := taIssues2, orig := resp },
   { gyFetched := true, exaltFetched := exRes.2.2, userDocFetched := gyRes.2.2 })

/-- JavaScript `String.prototype.toLowerCase` on the ASCII names the
source compares: per-character lowercasing. -/
def jsToLowerCase (s : String) : String :=
  String.mk (s.data.map Char.toLower)

/-- The last-seen privacy check, run first: a required-hidden but public
location yields a try-again issue. -/
def lastSeenIssues (vr : VerifReq) (resp : PlayerData) : List String :=
  if vr.lastSeen.mustBeHidden ∧ resp.lastSeen ≠ "hidden" then
    ["Last Seen Location is Not Private"]
  else []

/-- The early-returned evaluation result of the guild short-circuit. -/
def guildFailResult (key : String) (vr : VerifReq) (resp : PlayerData) :
    ReqCheckResult × FetchLog :=
  ({ name := resp.name, conclusion := .FAIL, manualIssues := [],
     fatalIssues := [key], taIssues := lastSeenIssues vr resp, orig := resp },
   noFetch)

/-- The requirement evaluator `checkRequirements(member, section, resp)`.
A guild-name or guild-rank mismatch returns immediately with a fatal issue
and verdict FAIL, before any external lookup; otherwise evaluation
continues in `checkRequirementsMain`. -/
def checkRequirements (env : ExtEnv) (sec : SectionInfo) (resp : PlayerData) :
    ReqCheckResult × FetchLog :=
  if sec.verificationProperties.verifReq.guild.checkThis ∧
      sec.verificationProperties.verifReq.guild.guildName.checkThis ∧
      jsToLowerCase resp.guild ≠
        jsToLowerCase sec.verificationProperties.verifReq.guild.guildName.name then
    guildFailResult "Not In Correct Guild" sec.verificationProperties.verifReq resp
  else if sec.verificationProperties.verifReq.guild.checkThis ∧
      sec.verificationProperties.verifReq.guild.guildRank.checkThis ∧
      sec.verificationProperties.verifReq.guild.guildRank.exact = true ∧
      sec.verificationProperties.verifReq.guild.guildRank.minRank ≠ resp.guildRank then
    guildFailResult "Not In Correct Guild" sec.verificationProperties.verifReq resp
  else if sec.verificationProperties.verifReq.guild.checkThis ∧
      sec.verificationProperties.verifReq.guild.guildRank.checkThis ∧
      sec.verificationProperties.verifReq.guild.guildRank.exact = false ∧
      isValidGuildRank sec.verificationProperties.verifReq.guild.guildRank.minRank
        resp.guildRank = false then
    guildFailResult "Invalid Guild Rank" sec.verificationProperties.verifReq resp
  else
    checkRequirementsMain env sec resp
      (lastSeenIssues sec.verificationProperties.verifReq resp)

/-- The observable outcome of one `verifySection` invocation. -/
inductive SectionOutcome
  | skipped
  | directVerified
  | noNameAbort
  | profileUnavailable
  | tryAgainReply
  | failReply
  | manualCase
  | verified
deriving DecidableEq, Repr

/-- The per-invocation external state `verifySection` consults: whether
the section's verified role could be fetched, whether the member already
holds it, the resolved in-game name, and the fresh profile snapshot. -/
structure SectionEnv where
  verifiedRoleFetched : Bool
  memberHasRole : Bool
  nameToUse : Option String
  requestData : Option PlayerData

/-- `verifySection(member, section, verifKit, interaction)`: the
non-main-section verification dispatch.  Returns the outcome together
with whether the requirement evaluator was invoked. -/
def verifySection (env : ExtEnv) (senv : SectionEnv) (sec : SectionInfo) :
    SectionOutcome × Bool :=
  if senv.verifiedRoleFetched = false ∨ senv.memberHasRole = true then
    (.skipped, false)
  else if sec.verificationProperties.checkRequirements = false then
    (.directVerified, false)
  else
    match senv.nameToUse with
    | none => (.noNameAbort, false)
    | some _ =>
      match senv.requestData with
      | none => (.profileUnavailable, false)
      | some resp =>
        let checkRes := (checkRequirements env sec resp).1
        if checkRes.conclusion = .TRY_AGAIN then (.tryAgainReply, true)
        else if checkRes.conclusion = .FAIL then (.failReply, true)
        else if checkRes.conclusion = .MANUAL then (.manualCase, true)
        else (.verified, true)

/-- The observable outcome of one CHECKING step of the main-section
verification session (`verifyMain`'s component collector handler). -/
inductive MainCheckOutcome
  | canceled
  | profileErrorStop
  | codeNotFoundRetry
  | dmFailStop
  | nameHistoryRetry
  | blacklistedStop
  | evalFailStop
  | evalTryAgainRetry
  | manualHandoffStop
  | successStop
deriving DecidableEq, Repr

/-- The external inputs of one CHECKING step: which button fired, the
fresh snapshot, the session's one-time proof code, the name-history
lookup, the user's other registered names, the guild's blacklist (already
lowercased), and whether the direct message to the user succeeds. -/
structure MainCheckEnv where
  cancelPressed : Bool
  requestData : Option PlayerData
  code : String
  nameHistory : Option (List String)
  allAssociatedNames : List String
  blacklistedLowerIgns : List String
  dmOk : Bool

/-- JavaScript `String.prototype.includes` for a non-empty search string,
via `splitOn`. -/
def strIncludes (d code : String) : Bool :=
  (d.splitOn code).length > 1

/-- Whether the proof code appears in some profile description line. -/
def codeFoundIn (descr : List String) (code : String) : Bool :=
  descr.any (fun d => strIncludes d code)

/-- Whether any of the snapshot name, the name-history names or the
associated names matches a blacklist entry (blacklist entries are stored
lowercased, candidate names are lowercased before comparison). -/
def blacklistHit (menv : MainCheckEnv) (resp : PlayerData) : Bool :=
  menv.blacklistedLowerIgns.any (fun bl =>
    (resp.name :: ((menv.nameHistory).getD [] ++ menv.allAssociatedNames)).any
      (fun nm => jsToLowerCase nm == bl))

/-- One CHECKING step of the main-section session: cancel wins first; an
unobtainable snapshot stops the session; a missing proof code or missing
name history re-presents the proof prompt (or stops when the user cannot
be messaged); a blacklist hit stops with FAIL; otherwise the evaluator's
verdict is dispatched. -/
def verifyMainCheckStep (env : ExtEnv) (mainSection : SectionInfo)
    (menv : MainCheckEnv) : MainCheckOutcome :=
  if menv.cancelPressed then .canceled
  else
    match menv.requestData with
    | none => .profileErrorStop
    | some requestData =>
      if codeFoundIn requestData.description menv.code = false then
        (if menv.dmOk then .codeNotFoundRetry else .dmFailStop)
      else
        match menv.nameHistory with
        | none => (if menv.dmOk then .nameHistoryRetry else .dmFailStop)
        | some _ =>
          if blacklistHit menv requestData then .blacklistedStop
          else
            let checkRes := (checkRequirements env mainSection requestData).1
            if checkRes.conclusion = .FAIL then .evalFailStop
            else if checkRes.conclusion = .TRY_AGAIN then
              (if menv.dmOk then .evalTryAgainRetry else .dmFailStop)
            else if checkRes.conclusion = .MANUAL then .manualHandoffStop
            else .successStop

/-- Whether a CHECKING-step outcome stops the session's component
collector (every branch of the source handler calls `collector.stop()`
except the three that re-present the proof prompt and return). -/
def sessionTerminated : MainCheckOutcome → Bool
  | .codeNotFoundRetry => false
  | .nameHistoryRetry => false
  | .evalTryAgainRetry => false
  | _ => true

/-- `IManualVerificationEntry`. -/
structure ManualVerifEntry where
  userId : String
  ign : String
  manualVerifyMsgId : String
  manualVerifyChannelId : String
  sectionId : String
deriving DecidableEq, Repr

/-- The state `acknowledgeManualVerifyRes` reads: whether the subject is
still a guild member, the configured sections (unique identifier paired
with verified-role id), the main section's verified-role id, the role
cache, the durable manual-verification entries, and the result of a
modmail handoff. -/
structure AckEnv where
  memberPresent : Bool
  guildSections : List (String × String)
  mainVerifiedRoleId : String
  hasCachedRole : String → Bool
  entries : List ManualVerifEntry
  modmailResult : Bool

/-- Button id for accepting a manual verification application. -/
def MANUAL_VERIFY_ACCEPT_ID : String := "accept_manual"

/-- Button id for denying a manual verification application. -/
def MANUAL_VERIFY_DENY_ID : String := "reject_manual"

/-- Button id for escalating a manual verification application to
modmail. -/
def MANUAL_VERIFY_MODMAIL_ID : String := "modmail_manual"

/-- Resolution of the entry's section to its verified-role id: a
configured section wins; the reserved id `MAIN` falls back to the main
section; anything else is an orphaned section. -/
def resolveSectionRole (st : AckEnv) (mv : ManualVerifEntry) : Option String :=
  match st.guildSections.lookup mv.sectionId with
  | some roleId => some roleId
  | none => if mv.sectionId = "MAIN" then some st.mainVerifiedRoleId else none

/-- `acknowledgeManualVerifyRes(manualVerifyRes, moderator, responseId)`:
returns whether the acknowledgement completed, together with the durable
entry list after the Mongo pulls the call performs.  A departed subject
purges every entry of that user; an orphaned non-main section purges every
entry of that section; a missing verified role refuses without touching
the store; accept and deny dispositions pull the (section, user) pair. -/
def acknowledgeManualVerifyRes (st : AckEnv) (mv : ManualVerifEntry)
    (responseId : String) : Bool × List ManualVerifEntry :=
  if st.memberPresent = false then
    (false, st.entries.filter (fun e => e.userId ≠ mv.userId))
  else
    match resolveSectionRole st mv with
    | none => (false, st.entries.filter (fun e => e.sectionId ≠ mv.sectionId))
    | some roleId =>
      if st.hasCachedRole roleId = false then (false, st.entries)
      else if responseId = MANUAL_VERIFY_MODMAIL_ID then (st.modmailResult, st.entries)
      else if responseId = MANUAL_VERIFY_DENY_ID ∨ responseId = MANUAL_VERIFY_ACCEPT_ID then
        (true, st.entries.filter
          (fun e => ¬(e.sectionId = mv.sectionId ∧ e.userId = mv.userId)))
      else (false, st.entries)

/-- Spec-side formulation of the downward cascade target: scanning
downward from `t - 1` to `0`, the first tier found with a positive needed
count. -/
def firstNeededBelow (needed : List Int) (t : Nat) : Option Nat :=
  (List.range t).reverse.find? (fun j => decide (needed.getD j 0 > 0))

/-- Spec-side predicate for the `onOneChar` exaltation mode, as worded in
the specification: some single character meets every per-stat minimum
simultaneously. -/
def someSingleCharMeetsAll (entries : List ExaltEntry) (minimum : Stat → Int) : Prop :=
  ∃ e ∈ entries, ∀ s ∈ STAT_KEYS, minimum s ≤ e.exaltationStats s

/-- A policy tree with every sub-check disabled. -/
def vrOff : VerifReq :=
  { lastSeen := { mustBeHidden := false },
    guild :=
      { checkThis := false,
        guildName := { checkThis := false, name := "" },
        guildRank := { checkThis := false, minRank := "", exact := false } },
    rank := { checkThis := false, minRank := 0 },
    aliveFame := { checkThis := false, minFame := 0 },
    characters := { checkThis := false, statsNeeded := [], checkPastDeaths := false },
    exaltations := { checkThis := false, onOneChar := false, minimum := fun _ => 0 },
    graveyardSummary :=
      { checkThis := false, useBotCompletions := false,
        botCompletions := [], realmEyeCompletions := [] } }

/-- A section built from a master flag and a requirement tree. -/
def secOf (flag : Bool) (vr : VerifReq) : SectionInfo :=
  { uniqueIdentifier := "MAIN", isMainSection := true, verifiedRoleId := "role",
    manualVerificationChannelId := "chan",
    verificationProperties := { checkRequirements := flag, verifReq := vr } }

/-- A default environment: no external record available, no dungeons, and
every channel id cached (in particular the manual verification channel is
configured). -/
def envDefault : ExtEnv :=
  { gyHist := none, exaltData := none, userDoc := none,
    dungeonExists := fun _ => false, hasCachedChannel := fun _ => true }

/-- Like `envDefault`, but with no channel cached — in particular the
manual verification channel is not configured. -/
def envNoChannel : ExtEnv :=
  { gyHist := none, exaltData := none, userDoc := none,
    dungeonExists := fun _ => false, hasCachedChannel := fun _ => false }

/-- A default snapshot that passes every check of `vrOff`. -/
def respDefault : PlayerData :=
  { name := "Alice", rank := 0, fame := 0, guild := "", guildRank := "",
    lastSeen := "hidden", description := [], characters := [] }

/-- Policy with only the last-seen privacy requirement active, under a
master flag set to `false` (fixture for the master-flag claim). -/
def secC1 : SectionInfo :=
  secOf false
    { vrOff with lastSeen := { mustBeHidden := true } }

/-- A snapshot whose last-seen location is public. -/
def respVisible : PlayerData :=
  { respDefault with lastSeen := "visible" }

/-- CHECKING-step inputs whose snapshot lookup failed. -/
def menvNoProfile : MainCheckEnv :=
  { cancelPressed := false, requestData := none, code := "SECRETCODE",
    nameHistory := none, allAssociatedNames := [], blacklistedLowerIgns := [],
    dmOk := true }

/-- CHECKING-step inputs whose snapshot was fetched but does not contain
the proof code, with a deliverable direct message. -/
def menvNoCode : MainCheckEnv :=
  { cancelPressed := false, requestData := some respDefault, code := "SECRETCODE",
    nameHistory := none, allAssociatedNames := [], blacklistedLowerIgns := [],
    dmOk := true }

/-- Policy requiring membership in guild `Alpha` (fixture for the guild
short-circuit and precedence claims). -/
def secGuild : SectionInfo :=
  secOf true
    { vrOff with guild :=
        { checkThis := true,
          guildName := { checkThis := true, name := "Alpha" },
          guildRank := { checkThis := false, minRank := "", exact := false } } }

/-- Policy needing one tier-2 character (fixture: a tier-3 character
cascades down to satisfy it). -/
def secC5a : SectionInfo :=
  secOf true
    { vrOff with characters :=
        { checkThis := true, statsNeeded := [0, 0, 1, 0, 0, 0, 0, 0],
          checkPastDeaths := false } }

/-- A snapshot owning a single live tier-3 character. -/
def respC5a : PlayerData :=
  { respDefault with characters := [{ statsMaxed := 3 }] }

/-- Policy needing one tier-1 character (fixture: a tier-0 character never
cascades upward to satisfy it). -/
def secC5b : SectionInfo :=
  secOf true
    { vrOff with characters :=
        { checkThis := true, statsNeeded := [0, 1, 0, 0, 0, 0, 0, 0],
          checkPastDeaths := false } }

/-- A snapshot owning a single live tier-0 character. -/
def respC5b : PlayerData :=
  { respDefault with characters := [{ statsMaxed := 0 }] }

/-- Exaltation policy: single-character mode with all per-stat minimums
zero (fixture for the vacuous-satisfaction edge of the one-character
mode). -/
def vrExaltZero : VerifReq :=
  { vrOff with exaltations :=
      { checkThis := true, onOneChar := true, minimum := fun _ => 0 } }

/-- Environment whose exaltation record exists but lists no exalted
character. -/
def envNoExaltChars : ExtEnv :=
  { envDefault with exaltData := some { exaltations := [] } }

/-- Policy with only the exaltation branch enabled (fixture for the lazy
exaltation fetch). -/
def secC8e : SectionInfo :=
  secOf true
    { vrOff with exaltations :=
        { checkThis := true, onOneChar := false, minimum := fun _ => 0 } }

/-- Policy with only the logged-counters branch enabled (fixture for the
lazy user-document fetch). -/
def secC8u : SectionInfo :=
  secOf true
    { vrOff with graveyardSummary :=
        { checkThis := true, useBotCompletions := true,
          botCompletions := [], realmEyeCompletions := [] } }

/-- Acknowledgement state with one configured section whose verified role
is not cached. -/
def stNoRole : AckEnv :=
  { memberPresent := true, guildSections := [("s1", "r1")],
    mainVerifiedRoleId := "rm", hasCachedRole := fun _ => false,
    entries :=
      [{ userId := "u1", ign := "Alice", manualVerifyMsgId := "m1",
         manualVerifyChannelId := "c1", sectionId := "s1" }],
    modmailResult := false }

/-- Acknowledgement state with one configured section whose verified role
is cached. -/
def stRole : AckEnv :=
  { stNoRole with hasCachedRole := fun _ => true }

/-- The durable entry both acknowledgement fixtures hold. -/
def mvEntry : ManualVerifEntry :=
  { userId := "u1", ign := "Alice", manualVerifyMsgId := "m1",
    manualVerifyChannelId := "c1", sectionId := "s1" }

/-- Per-stat minimums requiring 5 attack and 5 defense exaltations. -/
def minAD : Stat → Int :=
  fun s => if s = .attack ∨ s = .defense then 5 else 0

/-- A character with only attack exaltations. -/
def exaltA : ExaltEntry :=
  { exaltationStats := fun s => if s = .attack then 5 else 0 }

/-- A character with only defense exaltations. -/
def exaltB : ExaltEntry :=
  { exaltationStats := fun s => if s = .defense then 5 else 0 }

/-- A character exalted in every stat. -/
def exaltC : ExaltEntry :=
  { exaltationStats := fun _ => 5 }

theorem cascadeDown_eq_firstNeededBelow (needed : List Int) (amt : Int) :
    ∀ t : Nat,
      cascadeDown needed amt t =
        (match firstNeededBelow needed t with
         | none => needed
         | some j => needed.set j (needed.getD j 0 - amt)) := by
  intro t
  induction t with
  | zero => rfl
  | succ k ih =>
    have hstep : cascadeDown needed amt (k + 1) =
        (if needed.getD k 0 > 0 then needed.set k (needed.getD k 0 - amt)
         else cascadeDown needed amt k) := rfl
    have hrev : (List.range (k + 1)).reverse = k :: (List.range k).reverse := by
      simp [List.range_succ]
    by_cases h : needed.getD k 0 > 0
    · have h2 : 0 < needed[k]?.getD 0 := by
        simpa [List.getD_eq_getElem?_getD] using h
      have hfind : firstNeededBelow needed (k + 1) = some k := by
        rw [firstNeededBelow, hrev]
        simp [List.find?, h2]
      rw [hstep, if_pos h, hfind]
    · have h2 : ¬ 0 < needed[k]?.getD 0 := by
        simpa [List.getD_eq_getElem?_getD] using h
      have hfind : firstNeededBelow needed (k + 1) = firstNeededBelow needed k := by
        rw [firstNeededBelow, hrev, firstNeededBelow]
        simp [List.find?, h2]
      rw [hstep, if_neg h, hfind, ih]

theorem cascadeDown_getD_of_le (needed : List Int) (amt : Int) :
    ∀ t j : Nat, t ≤ j → (cascadeDown needed amt t).getD j 0 = needed.getD j 0 := by
  intro t
  induction t with
  | zero => intro j _; rfl
  | succ k ih =>
    intro j hj
    have hstep : cascadeDown needed amt (k + 1) =
        (if needed.getD k 0 > 0 then needed.set k (needed.getD k 0 - amt)
         else cascadeDown needed amt k) := rfl
    by_cases h : needed.getD k 0 > 0
    · have hne : k ≠ j := by omega
      rw [hstep, if_pos h]
      simp [List.getD_eq_getElem?_getD, List.getElem?_set_ne hne]
    · rw [hstep, if_neg h]
      exact ih j (by omega)

theorem oneCharLoop_eq_any (needed : Stat → Int) :
    ∀ entries : List ExaltEntry,
      oneCharLoop needed entries =
        (if entries.any (entryPasses needed) then zeroAllStats needed else needed) := by
  intro entries
  induction entries with
  | nil => rfl
  | cons e rest ih =>
    by_cases h : entryPasses needed e
    · simp [oneCharLoop, h]
    · simp [oneCharLoop, h, ih]

theorem zeroAllStats_apply (needed : Stat → Int) (s : Stat) :
    zeroAllStats needed s = 0 := by
  cases s <;> rfl

theorem sumEntry_apply (needed : Stat → Int) (e : ExaltEntry) (s : Stat) :
    sumEntry needed e s = needed s - e.exaltationStats s := by
  cases s <;> rfl

theorem sumFold_apply (entries : List ExaltEntry) :
    ∀ (needed : Stat → Int) (s : Stat),
      (entries.foldl sumEntry needed) s =
        needed s - (entries.map (fun e => e.exaltationStats s)).sum := by
  induction entries with
  | nil => intro needed s; simp
  | cons e rest ih =>
    intro needed s
    simp only [List.foldl_cons, List.map_cons, List.sum_cons]
    rw [ih, sumEntry_apply]
    ring

theorem entryPasses_iff (needed : Stat → Int) (e : ExaltEntry) :
    entryPasses needed e = true ↔
      ∀ s ∈ STAT_KEYS, needed s ≤ e.exaltationStats s := by
  simp [entryPasses, List.all_eq_true, sub_nonpos]

theorem exaltationCheck_fetch (env : ExtEnv) (vr : VerifReq) :
    (exaltationCheck env vr).2.2 = vr.exaltations.checkThis := by
  unfold exaltationCheck
  by_cases h : vr.exaltations.checkThis = true
  · cases henv : env.exaltData <;> simp [h, henv]
  · simp at h
    simp [h]

theorem graveyardCheck_fetch (env : ExtEnv) (vr : VerifReq)
    (gyHist : Option GraveyardSummary) :
    (graveyardCheck env vr gyHist).2.2 =
      (vr.graveyardSummary.checkThis && vr.graveyardSummary.useBotCompletions) := by
  unfold graveyardCheck
  by_cases h : vr.graveyardSummary.checkThis = true
  · by_cases hb : vr.graveyardSummary.useBotCompletions = true
    · simp [h, hb]
    · simp at hb
      cases gyHist <;> simp [h, hb]
  · simp at h
    simp [h]

theorem checkRequirementsMain_fatal (env : ExtEnv) (sec : SectionInfo)
    (resp : PlayerData) (ta0 : List String) :
    (checkRequirementsMain env sec resp ta0).1.fatalIssues = [] := rfl

theorem checkRequirementsMain_conclusion (env : ExtEnv) (sec : SectionInfo)
    (resp : PlayerData) (ta0 : List String) :
    (checkRequirementsMain env sec resp ta0).1.conclusion =
      (if resolveConclusion (checkRequirementsMain env sec resp ta0).1.fatalIssues
            (checkRequirementsMain env sec resp ta0).1.taIssues
            (checkRequirementsMain env sec resp ta0).1.manualIssues = .MANUAL ∧
          env.hasCachedChannel sec.manualVerificationChannelId = false then
        Conclusion.FAIL
       else
        resolveConclusion (checkRequirementsMain env sec resp ta0).1.fatalIssues
          (checkRequirementsMain env sec resp ta0).1.taIssues
          (checkRequirementsMain env sec resp ta0).1.manualIssues) := rfl

theorem checkRequirementsMain_log (env : ExtEnv) (sec : SectionInfo)
    (resp : PlayerData) (ta0 : List String) :
    (checkRequirementsMain env sec resp ta0).2 =
      { gyFetched := true,
        exaltFetched :=
          (exaltationCheck env sec.verificationProperties.verifReq).2.2,
        userDocFetched :=
          (graveyardCheck env sec.verificationProperties.verifReq env.gyHist).2.2 } := rfl

theorem checkRequirements_early_or_main (env : ExtEnv) (sec : SectionInfo)
    (resp : PlayerData) :
    ((checkRequirements env sec resp).1.conclusion = .FAIL ∧
     ((checkRequirements env sec resp).1.fatalIssues = ["Not In Correct Guild"] ∨
      (checkRequirements env sec resp).1.fatalIssues = ["Invalid Guild Rank"]) ∧
     (checkRequirements env sec resp).1.manualIssues = [] ∧
     (checkRequirements env sec resp).2 = noFetch) ∨
    checkRequirements env sec resp =
      checkRequirementsMain env sec resp
        (lastSeenIssues sec.verificationProperties.verifReq resp) := by
  unfold checkRequirements
  split
  · exact Or.inl ⟨rfl, Or.inl rfl, rfl, rfl⟩
  · split
    · exact Or.inl ⟨rfl, Or.inl rfl, rfl, rfl⟩
    · split
      · exact Or.inl ⟨rfl, Or.inr rfl, rfl, rfl⟩
      · exact Or.inr rfl

/-- C10: `isValidGuildRank` is reflexive for every rank string, including
strings outside the fixed five-rank ordering, and for a floor string not
in `GUILD_ROLES` it rejects every other actual rank. -/
theorem c10_isValidGuildRank_props :
    (∀ r : String, isValidGuildRank r r = true) ∧
    (∀ floor actual : String, floor ∉ GUILD_ROLES → actual ≠ floor →
      isValidGuildRank floor actual = false) := by
  constructor
  · intro r
    simp [isValidGuildRank]
  · intro floor actual hfl hne
    have hidx : jsIndexOf floor GUILD_ROLES = -1 := by
      simp only [GUILD_ROLES, List.mem_cons, List.not_mem_nil, or_false, not_or] at hfl
      obtain ⟨h1, h2, h3, h4, h5⟩ := hfl
      simp [jsIndexOf, GUILD_ROLES, Ne.symm h1, Ne.symm h2, Ne.symm h3, Ne.symm h4,
        Ne.symm h5]
    simp [isValidGuildRank, Ne.symm hne, hidx]

/-- C10 witness: a rank name outside the ordering is accepted against
itself and rejected against a real rank. -/
theorem c10_isValidGuildRank_props_witness :
    isValidGuildRank "Quartermaster" "Quartermaster" = true ∧
    isValidGuildRank "Quartermaster" "Leader" = false :=
  ⟨c10_isValidGuildRank_props.1 "Quartermaster",
   c10_isValidGuildRank_props.2 "Quartermaster" "Leader" (by decide) (by decide)⟩

/-- C1 counterexample: with the master flag `checkRequirements = false`
but the last-seen sub-check configured, the evaluator applied to a
public-location snapshot returns TRY_AGAIN with a non-empty try-again
list — it does not return PASS with all lists empty, because it never
consults the master flag. -/
theorem c1_master_flag_counterexample :
    secC1.verificationProperties.checkRequirements = false ∧
    (checkRequirements envDefault secC1 respVisible).1.conclusion = .TRY_AGAIN ∧
    (checkRequirements envDefault secC1 respVisible).1.taIssues =
      ["Last Seen Location is Not Private"] :=
  ⟨rfl, by decide, by decide⟩

/-- C1 (amended): the master flag is consulted by the caller, not by the
evaluator: when `checkRequirements = false`, `verifySection` (given a
fetched verified role and a member who does not yet hold it) grants
membership directly and never invokes the requirement evaluator. -/
theorem c1_master_flag_bypass (env : ExtEnv) (senv : SectionEnv) (sec : SectionInfo)
    (hrole : senv.verifiedRoleFetched = true) (hhas : senv.memberHasRole = false)
    (hflag : sec.verificationProperties.checkRequirements = false) :
    verifySection env senv sec = (.directVerified, false) := by
  simp [verifySection, hrole, hhas, hflag]

/-- C1 witness: the direct-verification path on a concrete section whose
master flag is off. -/
theorem c1_master_flag_bypass_witness :
    verifySection envDefault
      { verifiedRoleFetched := true, memberHasRole := false,
        nameToUse := none, requestData := none }
      (secOf false vrOff) = (.directVerified, false) :=
  c1_master_flag_bypass envDefault _ _ rfl rfl rfl

/-- C2 counterexample: in the CHECKING step, an unobtainable snapshot
(profile lookup failed) stops the session's collector — the session is
terminated and must be restarted, rather than returning to the
AWAIT_PROOF wait state. -/
theorem c2_profile_unavailable_counterexample :
    verifyMainCheckStep envDefault (secOf true vrOff) menvNoProfile = .profileErrorStop ∧
    sessionTerminated
      (verifyMainCheckStep envDefault (secOf true vrOff) menvNoProfile) = true :=
  ⟨rfl, rfl⟩

/-- C2 (amended): in the CHECKING step, a missing proof code returns the
session to AWAIT_PROOF (when the user can be messaged), but an
unobtainable snapshot terminates the session with an error requiring a
restart. -/
theorem c2_checking_step_behavior (env : ExtEnv) (sec : SectionInfo)
    (menv : MainCheckEnv) (hc : menv.cancelPressed = false) :
    (menv.requestData = none →
      verifyMainCheckStep env sec menv = .profileErrorStop ∧
      sessionTerminated (verifyMainCheckStep env sec menv) = true) ∧
    (∀ resp, menv.requestData = some resp →
      codeFoundIn resp.description menv.code = false → menv.dmOk = true →
      verifyMainCheckStep env sec menv = .codeNotFoundRetry ∧
      sessionTerminated (verifyMainCheckStep env sec menv) = false) := by
  constructor
  · intro h
    simp [verifyMainCheckStep, hc, h, sessionTerminated]
  · intro resp h hcode hdm
    simp [verifyMainCheckStep, hc, h, hcode, hdm, sessionTerminated]

/-- C2 witness: the two CHECKING-step scenarios at concrete inputs — a
failed snapshot lookup terminates, a missing proof code retries. -/
theorem c2_checking_step_behavior_witness :
    (verifyMainCheckStep envDefault (secOf true vrOff) menvNoProfile = .profileErrorStop ∧
     sessionTerminated
       (verifyMainCheckStep envDefault (secOf true vrOff) menvNoProfile) = true) ∧
    (verifyMainCheckStep envDefault (secOf true vrOff) menvNoCode = .codeNotFoundRetry ∧
     sessionTerminated
       (verifyMainCheckStep envDefault (secOf true vrOff) menvNoCode) = false) :=
  ⟨(c2_checking_step_behavior envDefault (secOf true vrOff) menvNoProfile rfl).1 rfl,
   (c2_checking_step_behavior envDefault (secOf true vrOff) menvNoCode rfl).2
     respDefault rfl (by decide) rfl⟩

/-- C4: with the guild check and guild-name check enabled, a
case-insensitive guild-name mismatch makes the evaluator fail immediately
with the single fatal issue, no manual issues, no external lookup, and a
result independent of every auxiliary lookup — no later check is
evaluated. -/
theorem c4_guild_shortcircuit (env : ExtEnv) (sec : SectionInfo) (resp : PlayerData)
    (hg : sec.verificationProperties.verifReq.guild.checkThis = true)
    (hgn : sec.verificationProperties.verifReq.guild.guildName.checkThis = true)
    (hne : jsToLowerCase resp.guild ≠
      jsToLowerCase sec.verificationProperties.verifReq.guild.guildName.name) :
    (checkRequirements env sec resp).1.conclusion = .FAIL ∧
    (checkRequirements env sec resp).1.fatalIssues = ["Not In Correct Guild"] ∧
    (checkRequirements env sec resp).1.manualIssues = [] ∧
    (checkRequirements env sec resp).2 = noFetch ∧
    ∀ env2 : ExtEnv, checkRequirements env2 sec resp = checkRequirements env sec resp := by
  have key : ∀ e : ExtEnv, checkRequirements e sec resp =
      guildFailResult "Not In Correct Guild" sec.verificationProperties.verifReq resp := by
    intro e
    unfold checkRequirements
    rw [if_pos ⟨hg, hgn, hne⟩]
  refine ⟨?_, ?_, ?_, ?_, fun e2 => ?_⟩
  · rw [key env]; rfl
  · rw [key env]; rfl
  · rw [key env]; rfl
  · rw [key env]; rfl
  · rw [key env, key e2]

/-- C4 witness: the short-circuit at a concrete mismatching snapshot with
otherwise-passing data, under two different auxiliary environments. -/
theorem c4_guild_shortcircuit_witness :
    (checkRequirements envDefault secGuild respDefault).1.conclusion = .FAIL ∧
    (checkRequirements envDefault secGuild respDefault).1.fatalIssues =
      ["Not In Correct Guild"] ∧
    checkRequirements envNoExaltChars secGuild respDefault =
      checkRequirements envDefault secGuild respDefault :=
  ⟨(c4_guild_shortcircuit envDefault secGuild respDefault rfl rfl (by decide)).1,
   (c4_guild_shortcircuit envDefault secGuild respDefault rfl rfl (by decide)).2.1,
   (c4_guild_shortcircuit envDefault secGuild respDefault rfl rfl (by decide)).2.2.2.2
     envNoExaltChars⟩

/-- C3: the final verdict follows the fixed precedence
FATAL > TRY_AGAIN > MANUAL > PASS: a non-empty fatal list always forces
FAIL (in particular one fatal issue with any number of manual issues
yields FAIL, never MANUAL), and — when a manual-review channel is
configured, so that the MANUAL downgrade does not interfere — the
remaining verdicts follow the cascade on the try-again and manual
lists. -/
theorem c3_verdict_precedence (env : ExtEnv) (sec : SectionInfo) (resp : PlayerData) :
    ((checkRequirements env sec resp).1.fatalIssues ≠ [] →
      (checkRequirements env sec resp).1.conclusion = .FAIL) ∧
    ((checkRequirements env sec resp).1.fatalIssues = [] →
      (checkRequirements env sec resp).1.taIssues ≠ [] →
      (checkRequirements env sec resp).1.conclusion = .TRY_AGAIN) ∧
    (env.hasCachedChannel sec.manualVerificationChannelId = true →
      (checkRequirements env sec resp).1.fatalIssues = [] →
      (checkRequirements env sec resp).1.taIssues = [] →
      (checkRequirements env sec resp).1.manualIssues ≠ [] →
      (checkRequirements env sec resp).1.conclusion = .MANUAL) ∧
    ((checkRequirements env sec resp).1.fatalIssues = [] →
      (checkRequirements env sec resp).1.taIssues = [] →
      (checkRequirements env sec resp).1.manualIssues = [] →
      (checkRequirements env sec resp).1.conclusion = .PASS) := by
  rcases checkRequirements_early_or_main env sec resp with ⟨hc, hf, _, _⟩ | heq
  · refine ⟨fun _ => hc, ?_, ?_, ?_⟩
    · intro h0 _
      rcases hf with hf | hf <;> rw [h0] at hf <;> simp at hf
    · intro _ h0 _ _
      rcases hf with hf | hf <;> rw [h0] at hf <;> simp at hf
    · intro h0 _ _
      rcases hf with hf | hf <;> rw [h0] at hf <;> simp at hf
  · rw [heq]
    have hf := checkRequirementsMain_fatal env sec resp
      (lastSeenIssues sec.verificationProperties.verifReq resp)
    have hc := checkRequirementsMain_conclusion env sec resp
      (lastSeenIssues sec.verificationProperties.verifReq resp)
    refine ⟨fun hF => absurd hf hF, ?_, ?_, ?_⟩
    · intro _ hta
      rw [hc, hf]
      have hta' :
          0 < ((checkRequirementsMain env sec resp
            (lastSeenIssues sec.verificationProperties.verifReq resp)).1.taIssues).length :=
        List.length_pos.mpr hta
      simp [resolveConclusion, hta']
    · intro hch _ hta hman
      rw [hc, hf, hta]
      have hman' :
          0 < ((checkRequirementsMain env sec resp
            (lastSeenIssues sec.verificationProperties.verifReq resp)).1.manualIssues).length :=
        List.length_pos.mpr hman
      simp [resolveConclusion, hman', hch]
    · intro _ hta hman
      rw [hc, hf, hta, hman]
      simp [resolveConclusion]

/-- C3 witness: the four precedence outcomes at concrete inputs — a guild
mismatch (one fatal issue) fails even though the rank check would add
manual issues; a public location alone retries; an unmet tier need alone
escalates to MANUAL; a clean snapshot passes. -/
theorem c3_verdict_precedence_witness :
    (checkRequirements envDefault secGuild respDefault).1.conclusion = .FAIL ∧
    (checkRequirements envDefault secC1 respVisible).1.conclusion = .TRY_AGAIN ∧
    (checkRequirements envDefault secC5b respC5b).1.conclusion = .MANUAL ∧
    (checkRequirements envDefault (secOf true vrOff) respDefault).1.conclusion = .PASS :=
  ⟨(c3_verdict_precedence envDefault secGuild respDefault).1 (by decide),
   (c3_verdict_precedence envDefault secC1 respVisible).2.1 (by decide) (by decide),
   (c3_verdict_precedence envDefault secC5b respC5b).2.2.1 rfl (by decide) (by decide)
     (by decide),
   (c3_verdict_precedence envDefault (secOf true vrOff) respDefault).2.2.2 (by decide)
     (by decide) (by decide)⟩

/-- C7: when the precedence-resolved verdict is MANUAL and no manual
verification channel is cached for the scope, the final conclusion is
downgraded to FAIL; a resolved verdict other than MANUAL is never
altered, and with a configured channel the resolved verdict always stands
unchanged. -/
theorem c7_manual_downgrade (env : ExtEnv) (sec : SectionInfo) (resp : PlayerData) :
    (resolveConclusion (checkRequirements env sec resp).1.fatalIssues
        (checkRequirements env sec resp).1.taIssues
        (checkRequirements env sec resp).1.manualIssues = .MANUAL →
      env.hasCachedChannel sec.manualVerificationChannelId = false →
      (checkRequirements env sec resp).1.conclusion = .FAIL) ∧
    (resolveConclusion (checkRequirements env sec resp).1.fatalIssues
        (checkRequirements env sec resp).1.taIssues
        (checkRequirements env sec resp).1.manualIssues ≠ .MANUAL →
      (checkRequirements env sec resp).1.conclusion =
        resolveConclusion (checkRequirements env sec resp).1.fatalIssues
          (checkRequirements env sec resp).1.taIssues
          (checkRequirements env sec resp).1.manualIssues) ∧
    (env.hasCachedChannel sec.manualVerificationChannelId = true →
      (checkRequirements env sec resp).1.conclusion =
        resolveConclusion (checkRequirements env sec resp).1.fatalIssues
          (checkRequirements env sec resp).1.taIssues
          (checkRequirements env sec resp).1.manualIssues) := by
  rcases checkRequirements_early_or_main env sec resp with ⟨hc, hf, _, _⟩ | heq
  · have hres : resolveConclusion (checkRequirements env sec resp).1.fatalIssues
        (checkRequirements env sec resp).1.taIssues
        (checkRequirements env sec resp).1.manualIssues = .FAIL := by
      rcases hf with hf | hf <;> rw [hf] <;> simp [resolveConclusion]
    rw [hres]
    exact ⟨fun h => absurd h (by decide), fun _ => hc.trans rfl, fun _ => hc.trans rfl⟩
  · rw [heq]
    have hc := checkRequirementsMain_conclusion env sec resp
      (lastSeenIssues sec.verificationProperties.verifReq resp)
    rw [hc]
    refine ⟨?_, ?_, ?_⟩
    · intro hres hch
      rw [if_pos ⟨hres, hch⟩]
    · intro hres
      rw [if_neg (fun hand => hres hand.1)]
    · intro hch
      rw [if_neg (fun hand => by rw [hch] at hand; exact absurd hand.2 (by decide))]

/-- C7 witness: a MANUAL-resolved evaluation is downgraded to FAIL when
the channel is missing, and stands as MANUAL when it is configured. -/
theorem c7_manual_downgrade_witness :
    (checkRequirements envNoChannel secC5b respC5b).1.conclusion = .FAIL ∧
    (checkRequirements envDefault secC5b respC5b).1.conclusion =
      resolveConclusion (checkRequirements envDefault secC5b respC5b).1.fatalIssues
        (checkRequirements envDefault secC5b respC5b).1.taIssues
        (checkRequirements envDefault secC5b respC5b).1.manualIssues :=
  ⟨(c7_manual_downgrade envNoChannel secC5b respC5b).1 (by decide) rfl,
   (c7_manual_downgrade envDefault secC5b respC5b).2.2 rfl⟩

/-- C8 counterexample: on a policy with every branch disabled (neither the
character past-deaths branch nor the graveyard-history branch is active),
the evaluator still performs the graveyard-summary lookup — that lookup is
not lazy. -/
theorem c8_graveyard_eager_counterexample :
    vrOff.characters.checkThis = false ∧
    vrOff.characters.checkPastDeaths = false ∧
    vrOff.graveyardSummary.checkThis = false ∧
    (checkRequirements envDefault (secOf true vrOff) respDefault).2.gyFetched = true :=
  ⟨rfl, rfl, rfl, by decide⟩

/-- C8 (amended): the exaltation record is fetched only when the
exaltation check is enabled, and the logged-counters store is queried only
when the logged-completions mode is enabled; the graveyard summary,
however, is fetched on every evaluation that passes the guild gate
(equivalently: exactly when no fatal guild issue short-circuited the
run), regardless of the character and graveyard policy branches. -/
theorem c8_lazy_fetches (env : ExtEnv) (sec : SectionInfo) (resp : PlayerData) :
    ((checkRequirements env sec resp).2.exaltFetched = true →
      sec.verificationProperties.verifReq.exaltations.checkThis = true) ∧
    ((checkRequirements env sec resp).2.userDocFetched = true →
      sec.verificationProperties.verifReq.graveyardSummary.checkThis = true ∧
      sec.verificationProperties.verifReq.graveyardSummary.useBotCompletions = true) ∧
    ((checkRequirements env sec resp).2.gyFetched = true ↔
      (checkRequirements env sec resp).1.fatalIssues = []) := by
  rcases checkRequirements_early_or_main env sec resp with ⟨_, hf, _, hlog⟩ | heq
  · rw [hlog]
    refine ⟨fun h => absurd h (by simp [noFetch]), fun h => absurd h (by simp [noFetch]), ?_⟩
    constructor
    · intro h
      exact absurd h (by simp [noFetch])
    · intro h
      rcases hf with hf | hf <;> rw [h] at hf <;> simp at hf
  · rw [heq, checkRequirementsMain_log, checkRequirementsMain_fatal]
    rw [exaltationCheck_fetch, graveyardCheck_fetch]
    refine ⟨fun h => h, ?_, by simp⟩
    intro h
    exact ⟨(Bool.and_eq_true _ _ |>.mp h).1, (Bool.and_eq_true _ _ |>.mp h).2⟩

/-- C8 witness: the two lazy lookups at concrete policies that enable
them, and the unconditional graveyard fetch on a branch-free policy. -/
theorem c8_lazy_fetches_witness :
    secC8e.verificationProperties.verifReq.exaltations.checkThis = true ∧
    (secC8u.verificationProperties.verifReq.graveyardSummary.checkThis = true ∧
     secC8u.verificationProperties.verifReq.graveyardSummary.useBotCompletions = true) ∧
    ((checkRequirements envDefault (secOf true vrOff) respDefault).2.gyFetched = true ↔
      (checkRequirements envDefault (secOf true vrOff) respDefault).1.fatalIssues = []) :=
  ⟨(c8_lazy_fetches envDefault secC8e respDefault).1 (by decide),
   (c8_lazy_fetches envDefault secC8u respDefault).2.1 (by decide),
   (c8_lazy_fetches envDefault (secOf true vrOff) respDefault).2.2⟩

/-- C5: the character-tier cascading match — one character of tier `t`
decrements `needed[t]` when positive and otherwise decrements the first
tier found scanning downward from `t - 1` to `0`; processing one
character never changes a needed count at any tier strictly above its
own (no upward cascade); concretely, needs `[0,0,1,0,0,0,0,0]` are fully
satisfied by one tier-3 character (PASS, no manual issue), while needs
`[0,1,0,0,0,0,0,0]` with only a tier-0 character stay unsatisfied and
produce the stats manual issue (verdict MANUAL). -/
theorem c5_cascading_match :
    (∀ (needed : List Int) (t : Nat),
      charStep needed (t : Int) =
        (if needed.getD t 0 > 0 then needed.set t (needed.getD t 0 - 1)
         else
           match firstNeededBelow needed t with
           | none => needed
           | some j => needed.set j (needed.getD j 0 - 1))) ∧
    (∀ (needed : List Int) (t : Int) (j : Nat), t < (j : Int) →
      (charStep needed t).getD j 0 = needed.getD j 0) ∧
    ((checkRequirements envDefault secC5a respC5a).1.conclusion = .PASS ∧
     (checkRequirements envDefault secC5a respC5a).1.manualIssues = []) ∧
    ((checkRequirements envDefault secC5b respC5b).1.conclusion = .MANUAL ∧
     (checkRequirements envDefault secC5b respC5b).1.manualIssues =
       ["Stats Requirement Not Fulfilled"]) := by
  refine ⟨?_, ?_, ⟨by decide, by decide⟩, ⟨by decide, by decide⟩⟩
  · intro needed t
    unfold charStep
    rw [show ((t : Int)).toNat = t from Int.toNat_natCast t]
    by_cases h : needed.getD t 0 > 0
    · rw [if_pos ⟨Int.natCast_nonneg t, h⟩, if_pos h]
    · rw [if_neg (fun hand => h hand.2), if_neg h,
        cascadeDown_eq_firstNeededBelow]
  · intro needed t j hlt
    unfold charStep
    by_cases hc : 0 ≤ t ∧ needed.getD t.toNat 0 > 0
    · rw [if_pos hc]
      have hne : t.toNat ≠ j := by omega
      simp [List.getD_eq_getElem?_getD, List.getElem?_set_ne hne]
    · rw [if_neg hc]
      exact cascadeDown_getD_of_le needed 1 t.toNat j (by omega)

/-- C5 witness: a tier-3 character leaves the untouched higher tiers of a
concrete needed array unchanged. -/
theorem c5_cascading_match_witness :
    (charStep [(0 : Int), 0, 1, 0, 0, 0, 0, 0] 3).getD 5 0 =
      ([(0 : Int), 0, 1, 0, 0, 0, 0, 0]).getD 5 0 :=
  c5_cascading_match.2.1 [(0 : Int), 0, 1, 0, 0, 0, 0, 0] 3 5 (by decide)

/-- C6 counterexample: with the one-character mode enabled and every
per-stat minimum zero, a player whose exaltation record lists no
characters at all satisfies the requirement (no manual issue is raised),
yet no single character meets every per-stat minimum — the claimed
equivalence fails at this input. -/
theorem c6_one_char_counterexample :
    vrExaltZero.exaltations.onOneChar = true ∧
    exaltationCheck envNoExaltChars vrExaltZero = ([], [], true) ∧
    ¬ someSingleCharMeetsAll [] vrExaltZero.exaltations.minimum := by
  refine ⟨rfl, rfl, ?_⟩
  simp [someSingleCharMeetsAll]

/-- C6 (amended): in the one-character mode the requirement is satisfied
iff some single character meets every per-stat minimum simultaneously or
every minimum is already non-positive (vacuous satisfaction, reachable
with an empty character list); aggregation across characters never
satisfies it otherwise.  Without the one-character mode the minimums are
satisfied exactly by the sums across all characters. -/
theorem c6_exaltation_modes (minimum : Stat → Int) (entries : List ExaltEntry) :
    (exaltUnmetStats true minimum entries = [] ↔
      (someSingleCharMeetsAll entries minimum ∨ ∀ s ∈ STAT_KEYS, minimum s ≤ 0)) ∧
    (exaltUnmetStats false minimum entries = [] ↔
      ∀ s ∈ STAT_KEYS,
        minimum s ≤ (entries.map (fun e => e.exaltationStats s)).sum) := by
  constructor
  · have h1 : exaltUnmetStats true minimum entries =
        STAT_KEYS.filter (fun s => decide (oneCharLoop minimum entries s > 0)) := rfl
    rw [h1, oneCharLoop_eq_any]
    by_cases h : entries.any (entryPasses minimum)
    · rw [if_pos h]
      constructor
      · intro _
        left
        rcases List.any_eq_true.mp h with ⟨e, he, hp⟩
        exact ⟨e, he, (entryPasses_iff minimum e).mp hp⟩
      · intro _
        apply List.filter_eq_nil_iff.mpr
        intro s _
        simp [zeroAllStats_apply]
    · rw [if_neg h]
      constructor
      · intro hfil
        right
        intro s hs
        have h2 := List.filter_eq_nil_iff.mp hfil s hs
        simpa using h2
      · rintro (hex | hall)
        · rcases hex with ⟨e, he, hme⟩
          exact absurd (List.any_eq_true.mpr
            ⟨e, he, (entryPasses_iff minimum e).mpr hme⟩) h
        · apply List.filter_eq_nil_iff.mpr
          intro s hs
          simpa using hall s hs
  · have h2 : exaltUnmetStats false minimum entries =
        STAT_KEYS.filter
          (fun s => decide (entries.foldl sumEntry minimum s > 0)) := rfl
    rw [h2]
    constructor
    · intro hfil s hs
      have h3 := List.filter_eq_nil_iff.mp hfil s hs
      rw [sumFold_apply] at h3
      simp only [decide_eq_true_eq, not_lt] at h3
      exact sub_nonpos.mp h3
    · intro hall
      apply List.filter_eq_nil_iff.mpr
      intro s hs
      rw [sumFold_apply]
      simp only [decide_eq_true_eq, not_lt]
      exact sub_nonpos.mpr (hall s hs)

/-- C6 witness: the claim's own example — minimums {att:5, def:5} are
satisfied in one-character mode by a character exalted in everything, and
satisfied in aggregate mode by one attack-only plus one defense-only
character. -/
theorem c6_exaltation_modes_witness :
    exaltUnmetStats true minAD [exaltC] = [] ∧
    exaltUnmetStats false minAD [exaltA, exaltB] = [] :=
  ⟨(c6_exaltation_modes minAD [exaltC]).1.mpr
    (Or.inl ⟨exaltC, by simp, fun s _ => by cases s <;> decide⟩),
   (c6_exaltation_modes minAD [exaltA, exaltB]).2.mpr
    (fun s _ => by cases s <;> decide)⟩

/-- C9: moderator disposition of a manual-verification entry — when the
resolved scope's verified role is not cached, the acknowledgement is
refused and the durable entry list is untouched (so the disposition can be
retried later); a successful accept or deny disposition returns true and
removes exactly the entries of that (user, scope) pair from the durable
store. -/
theorem c9_manual_ack_disposition (st : AckEnv) (mv : ManualVerifEntry)
    (rid roleId : String) (hm : st.memberPresent = true)
    (hs : resolveSectionRole st mv = some roleId) :
    (st.hasCachedRole roleId = false →
      acknowledgeManualVerifyRes st mv rid = (false, st.entries)) ∧
    (st.hasCachedRole roleId = true →
      (rid = MANUAL_VERIFY_DENY_ID ∨ rid = MANUAL_VERIFY_ACCEPT_ID) →
      (acknowledgeManualVerifyRes st mv rid).1 = true ∧
      ∀ e, e ∈ (acknowledgeManualVerifyRes st mv rid).2 ↔
        (e ∈ st.entries ∧ ¬(e.sectionId = mv.sectionId ∧ e.userId = mv.userId))) := by
  have hbody : acknowledgeManualVerifyRes st mv rid =
      (if st.hasCachedRole roleId = false then (false, st.entries)
       else if rid = MANUAL_VERIFY_MODMAIL_ID then (st.modmailResult, st.entries)
       else if rid = MANUAL_VERIFY_DENY_ID ∨ rid = MANUAL_VERIFY_ACCEPT_ID then
         (true, st.entries.filter
           (fun e => ¬(e.sectionId = mv.sectionId ∧ e.userId = mv.userId)))
       else (false, st.entries)) := by
    unfold acknowledgeManualVerifyRes
    rw [if_neg (by simp [hm]), hs]
  rw [hbody]
  constructor
  · intro h
    rw [if_pos h]
  · intro hrole hrid
    rw [if_neg (by simp [hrole])]
    have hmod : ¬ rid = MANUAL_VERIFY_MODMAIL_ID := by
      rcases hrid with hrid | hrid <;> rw [hrid] <;> decide
    rw [if_neg hmod, if_pos hrid]
    refine ⟨rfl, fun e => ?_⟩
    rw [List.mem_filter]
    constructor
    · rintro ⟨h1, h2⟩
      simp only [decide_eq_true_eq] at h2
      exact ⟨h1, h2⟩
    · rintro ⟨h1, h2⟩
      exact ⟨h1, by simp only [decide_eq_true_eq]; exact h2⟩

/-- C9 witness: against a concrete state, a missing verified role refuses
without deleting, and a deny disposition with the role present succeeds
and leaves the store without the disposed pair. -/
theorem c9_manual_ack_disposition_witness :
    acknowledgeManualVerifyRes stNoRole mvEntry MANUAL_VERIFY_DENY_ID =
      (false, stNoRole.entries) ∧
    (acknowledgeManualVerifyRes stRole mvEntry MANUAL_VERIFY_DENY_ID).1 = true ∧
    (mvEntry ∈ (acknowledgeManualVerifyRes stRole mvEntry MANUAL_VERIFY_DENY_ID).2 ↔
      (mvEntry ∈ stRole.entries ∧
       ¬(mvEntry.sectionId = mvEntry.sectionId ∧ mvEntry.userId = mvEntry.userId))) :=
  ⟨(c9_manual_ack_disposition stNoRole mvEntry MANUAL_VERIFY_DENY_ID "r1" rfl rfl).1 rfl,
   ((c9_manual_ack_disposition stRole mvEntry MANUAL_VERIFY_DENY_ID "r1" rfl rfl).2 rfl
     (Or.inl rfl)).1,
   ((c9_manual_ack_disposition stRole mvEntry MANUAL_VERIFY_DENY_ID "r1" rfl rfl).2 rfl
     (Or.inl rfl)).2 mvEntry⟩

end VerifyManager
